import Mathlib

/-!
Shallow embedding of `src/server.js` of the inventory backend
(Express + Mongoose with an in-memory fallback).

JS numbers used as quantities, reorder points and unit prices are modelled
as `Int`; timestamps (`Date` values) as `Nat`; document ids (Mongo ObjectIds
and the in-memory `String(counter)` ids) as `String`.  Mongo collections and
the in-memory arrays are both modelled as Lean lists.  Each HTTP handler is
embedded as a pure function from its inputs and the storage state to the new
storage state plus the response data; the `useInMemory` flag of the source is
reflected by giving each dual-mode handler two definitions, one per branch.
-/

/-- The `status` enum of the product schema (server.js lines 54-58). -/
inductive Status where
  | inStock
  | lowStock
  | outOfStock
  | damaged
deriving DecidableEq, Repr

/-- A product record (the `productSchema` of server.js lines 44-59, plus the
`_id` and the `createdAt`/`updatedAt` timestamps added by `{timestamps: true}`
or by the in-memory handlers). -/
structure Product where
  id : String
  name : String
  sku : String
  category : String
  quantity : Int
  reorderPoint : Int
  unitPrice : Int
  location : String
  supplier : String
  lastRestocked : Nat
  status : Status
  createdAt : Nat
  updatedAt : Nat
deriving DecidableEq, Repr

/-- The transaction `type` enum (server.js line 63). -/
inductive TxType where
  | tIN
  | tOUT
  | tDAMAGE
  | tRETURN
deriving DecidableEq, Repr

/-- A transaction record (the `transactionSchema` of server.js lines 61-67
plus `_id` and `createdAt`). -/
structure Transaction where
  id : String
  productId : String
  type : TxType
  quantity : Int
  notes : String
  performedBy : String
  createdAt : Nat
deriving DecidableEq, Repr

/-- The branch structure of `updateProductStatus` (server.js lines 73-81),
as a function of the two fields it reads. -/
def deriveStatus (quantity reorderPoint : Int) : Status :=
  if quantity = 0 then .outOfStock
  else if quantity ≤ reorderPoint then .lowStock
  else .inStock

/-- `updateProductStatus` (server.js lines 73-81): overwrite `product.status`
from `product.quantity` and `product.reorderPoint`. -/
def updateProductStatus (product : Product) : Product :=
  { product with status := deriveStatus product.quantity product.reorderPoint }

/-- The in-memory storage (server.js lines 38-41): the two arrays and the two
id counters. -/
structure InMemoryState where
  inMemoryProducts : List Product
  inMemoryTransactions : List Transaction
  productIdCounter : Nat
  transactionIdCounter : Nat
deriving DecidableEq, Repr

/-- The Mongo-backed storage: the two collections. -/
structure DbState where
  products : List Product
  transactions : List Transaction
deriving DecidableEq, Repr

/-- Replace (the data of) the first product in the array whose `_id` matches:
the transaction and update handlers mutate in place the object returned by
`find`/`findIndex`, which is the first array entry with that id. -/
def replaceFirst (productId : String) (p' : Product) : List Product → List Product
  | [] => []
  | q :: qs => if q.id == productId then p' :: qs else q :: replaceFirst productId p' qs

/-- The quantity adjustment of POST /api/transactions (server.js lines
221-225 and 253-257): `+= quantity` for IN/RETURN, `-= quantity` for
OUT/DAMAGE. -/
def adjustQuantity (type : TxType) (quantity : Int) (p : Product) : Product :=
  match type with
  | .tIN | .tRETURN => { p with quantity := p.quantity + quantity }
  | .tOUT | .tDAMAGE => { p with quantity := p.quantity - quantity }

/-- Lines 227-229 / 259-261: `if (type === 'IN') product.lastRestocked = new Date()`. -/
def setLastRestocked (type : TxType) (now : Nat) (p : Product) : Product :=
  if type = .tIN then { p with lastRestocked := now } else p

/-- POST /api/transactions, in-memory branch (server.js lines 214-245).
`none` models the 404 "Product not found" response; otherwise the new state
together with the created transaction and the updated product, as returned
in the 201 response. -/
def postTransactionInMemory (productId : String) (type : TxType) (quantity : Int)
    (notes performedBy : Option String) (now : Nat) (s : InMemoryState) :
    Option (InMemoryState × Transaction × Product) :=
  match s.inMemoryProducts.find? (fun p => p.id == productId) with
  | none => none
  | some product =>
    let p' := { updateProductStatus (setLastRestocked type now
                  (adjustQuantity type quantity product)) with updatedAt := now }
    let transaction : Transaction :=
      { id := toString s.transactionIdCounter, productId := productId, type := type,
        quantity := quantity, notes := notes.getD "", performedBy := performedBy.getD "System",
        createdAt := now }
    some ({ inMemoryProducts := replaceFirst productId p' s.inMemoryProducts,
            inMemoryTransactions := s.inMemoryTransactions ++ [transaction],
            productIdCounter := s.productIdCounter,
            transactionIdCounter := s.transactionIdCounter + 1 },
          transaction, p')

/-- POST /api/transactions, MongoDB branch (server.js lines 246-270).
`txId` models the ObjectId Mongo generates for the new transaction; the
`updatedAt := now` on the saved product models the mongoose
`{timestamps: true}` option. -/
def postTransactionDb (productId : String) (type : TxType) (quantity : Int)
    (notes performedBy : Option String) (txId : String) (now : Nat) (s : DbState) :
    Option (DbState × Transaction × Product) :=
  match s.products.find? (fun p => p.id == productId) with
  | none => none
  | some product =>
    let p' := { updateProductStatus (setLastRestocked type now
                  (adjustQuantity type quantity product)) with updatedAt := now }
    let transaction : Transaction :=
      { id := txId, productId := productId, type := type, quantity := quantity,
        notes := notes.getD "", performedBy := performedBy.getD "System", createdAt := now }
    some ({ products := replaceFirst productId p' s.products,
            transactions := s.transactions ++ [transaction] },
          transaction, p')

/-- GET /api/transactions, in-memory branch (server.js line 280): the whole
array, as stored, unsorted and unlimited. -/
def getTransactionsInMemory (s : InMemoryState) : List Transaction :=
  s.inMemoryTransactions

/-- The `.sort({createdAt: -1})` order: `a` comes before `b` when `a` is at
least as recent. -/
def txRecent (a b : Transaction) : Prop := b.createdAt ≤ a.createdAt

instance : DecidableRel txRecent := fun a b =>
  inferInstanceAs (Decidable (b.createdAt ≤ a.createdAt))

instance : IsTotal Transaction txRecent :=
  ⟨fun a b => Nat.le_total b.createdAt a.createdAt⟩

instance : IsTrans Transaction txRecent :=
  ⟨fun _ _ _ hab hbc => Nat.le_trans hbc hab⟩

/-- GET /api/transactions, MongoDB branch (server.js lines 282-286):
`.sort({createdAt: -1}).limit(100)`.  (`.populate('productId')` resolves the
referenced product inline and does not change which transactions are
returned, so it is not modelled.) -/
def getTransactionsDb (s : DbState) : List Transaction :=
  (s.transactions.insertionSort txRecent).take 100

/-- A product creation payload (`req.body` of POST /api/products).  The
handler spreads the body and then overwrites `status` via
`updateProductStatus`, so the body's own `status` field (which a client may
set to any enum value, including Damaged) is modelled explicitly. -/
structure ProductBody where
  name : String
  sku : String
  category : String
  quantity : Int
  reorderPoint : Int
  unitPrice : Int
  location : String
  supplier : String
  lastRestocked : Nat
  status : Status
deriving DecidableEq, Repr

/-- POST /api/products, in-memory branch (server.js lines 132-141):
`{_id: String(productIdCounter++), ...req.body, createdAt, updatedAt}`, then
`updateProductStatus`, then push.  Returns the new state and the 201 body. -/
def createProductInMemory (body : ProductBody) (now : Nat) (s : InMemoryState) :
    InMemoryState × Product :=
  let newProduct : Product :=
    { id := toString s.productIdCounter, name := body.name, sku := body.sku,
      category := body.category, quantity := body.quantity,
      reorderPoint := body.reorderPoint, unitPrice := body.unitPrice,
      location := body.location, supplier := body.supplier,
      lastRestocked := body.lastRestocked, status := body.status,
      createdAt := now, updatedAt := now }
  let p := updateProductStatus newProduct
  ({ s with inMemoryProducts := s.inMemoryProducts ++ [p],
            productIdCounter := s.productIdCounter + 1 }, p)

/-- POST /api/products, MongoDB branch (server.js lines 142-147):
`new Product(req.body)`, `updateProductStatus`, `save`.  `newId` models the
generated ObjectId; the timestamps come from `{timestamps: true}`. -/
def createProductDb (body : ProductBody) (newId : String) (now : Nat) (s : DbState) :
    DbState × Product :=
  let p := updateProductStatus
    { id := newId, name := body.name, sku := body.sku, category := body.category,
      quantity := body.quantity, reorderPoint := body.reorderPoint,
      unitPrice := body.unitPrice, location := body.location, supplier := body.supplier,
      lastRestocked := body.lastRestocked, status := body.status,
      createdAt := now, updatedAt := now }
  ({ s with products := s.products ++ [p] }, p)

/-- A product update payload (`req.body` of PUT /api/products/:id): each
field optionally supplied; a supplied field overwrites the stored one. -/
structure UpdateBody where
  name : Option String
  sku : Option String
  category : Option String
  quantity : Option Int
  reorderPoint : Option Int
  unitPrice : Option Int
  location : Option String
  supplier : Option String
  lastRestocked : Option Nat
  status : Option Status
deriving DecidableEq, Repr

/-- The `{...existing, ...req.body}` merge of the update handlers. -/
def mergeBody (p : Product) (body : UpdateBody) : Product :=
  { p with
    name := body.name.getD p.name,
    sku := body.sku.getD p.sku,
    category := body.category.getD p.category,
    quantity := body.quantity.getD p.quantity,
    reorderPoint := body.reorderPoint.getD p.reorderPoint,
    unitPrice := body.unitPrice.getD p.unitPrice,
    location := body.location.getD p.location,
    supplier := body.supplier.getD p.supplier,
    lastRestocked := body.lastRestocked.getD p.lastRestocked,
    status := body.status.getD p.status }

/-- PUT /api/products/:id, in-memory branch (server.js lines 156-168):
find the index (404 if absent, modelled as `none`), merge the body, set
`updatedAt`, re-derive status, store back at the index. -/
def updateProductInMemory (id : String) (body : UpdateBody) (now : Nat)
    (s : InMemoryState) : Option (InMemoryState × Product) :=
  match s.inMemoryProducts.find? (fun p => p.id == id) with
  | none => none
  | some product =>
    let updatedProduct := updateProductStatus { mergeBody product body with updatedAt := now }
    some ({ s with inMemoryProducts := replaceFirst id updatedProduct s.inMemoryProducts },
          updatedProduct)

/-- PUT /api/products/:id, MongoDB branch (server.js lines 169-180):
`findByIdAndUpdate(id, req.body, {new: true, runValidators: true})` (404 if
absent), then `updateProductStatus`, then `save`.  The two persistence steps
are modelled by their combined final effect on the stored document. -/
def updateProductDb (id : String) (body : UpdateBody) (now : Nat) (s : DbState) :
    Option (DbState × Product) :=
  match s.products.find? (fun p => p.id == id) with
  | none => none
  | some product =>
    let updated := updateProductStatus { mergeBody product body with updatedAt := now }
    some ({ s with products := replaceFirst id updated s.products }, updated)

/-- DELETE /api/products/:id, in-memory branch (server.js lines 190-196):
`findIndex` then `splice(index, 1)`; 404 (state unchanged) if absent. -/
def deleteProductInMemory (id : String) (s : InMemoryState) : Nat × InMemoryState :=
  match s.inMemoryProducts.findIdx? (fun p => p.id == id) with
  | none => (404, s)
  | some index => (200, { s with inMemoryProducts := s.inMemoryProducts.eraseIdx index })

/-- DELETE /api/products/:id, MongoDB branch (server.js lines 197-202):
`findByIdAndDelete` removes the document with that `_id`; 404 if absent. -/
def deleteProductDb (id : String) (s : DbState) : Nat × DbState :=
  match s.products.find? (fun p => p.id == id) with
  | none => (404, s)
  | some _ => (200, { s with products := s.products.eraseP (fun p => p.id == id) })

/-- An error response: HTTP status code, fixed message, and the underlying
error detail (`error.message` in the source). -/
structure ErrorResponse where
  httpStatus : Nat
  message : String
  error : String
deriving DecidableEq, Repr

/-- The catch clause of GET /api/products (server.js lines 103-105). -/
def listProductsCatch (e : String) : ErrorResponse :=
  { httpStatus := 500, message := "Error fetching products", error := e }

/-- The catch clause of GET /api/products/:id (server.js lines 124-126). -/
def getProductCatch (e : String) : ErrorResponse :=
  { httpStatus := 500, message := "Error fetching product", error := e }

/-- The catch clause of POST /api/products (server.js lines 148-150). -/
def createProductCatch (e : String) : ErrorResponse :=
  { httpStatus := 400, message := "Error creating product", error := e }

/-- The catch clause of PUT /api/products/:id (server.js lines 182-184). -/
def updateProductCatch (e : String) : ErrorResponse :=
  { httpStatus := 400, message := "Error updating product", error := e }

/-- The catch clause of DELETE /api/products/:id (server.js lines 204-206). -/
def deleteProductCatch (e : String) : ErrorResponse :=
  { httpStatus := 500, message := "Error deleting product", error := e }

/-- The scalar aggregates of GET /api/analytics (server.js lines 303-306,
319-323).  The category breakdown, top-products sort and alert list reuse
the same filters and are not needed by the properties below. -/
structure AnalyticsResponse where
  totalProducts : Nat
  totalValue : Int
  lowStockCount : Nat
  damagedCount : Nat
deriving DecidableEq, Repr

/-- GET /api/analytics (server.js lines 294-338), computed over the current
product list (`inMemoryProducts` or `Product.find()`).  `totalValue` is the
source's `reduce((sum, p) => sum + (p.quantity * p.unitPrice), 0)`. -/
def getAnalytics (products : List Product) : AnalyticsResponse :=
  { totalProducts := products.length,
    totalValue := products.foldl (fun sum p => sum + p.quantity * p.unitPrice) 0,
    lowStockCount :=
      (products.filter (fun p => decide (p.status = .lowStock ∨ p.status = .outOfStock))).length,
    damagedCount := (products.filter (fun p => decide (p.status = .damaged))).length }

/-- One entry of the hard-coded `sampleProducts` array of POST /api/seed
(server.js lines 343-351). -/
structure SeedProduct where
  name : String
  sku : String
  category : String
  quantity : Int
  reorderPoint : Int
  unitPrice : Int
  location : String
  supplier : String
deriving DecidableEq, Repr

/-- The `sampleProducts` demo catalog (server.js lines 343-351). -/
def sampleProducts : List SeedProduct :=
  [⟨"Steel Rods (10mm)", "SR-10MM-001", "Steel", 150, 50, 450, "Warehouse A", "Steel Corp India"⟩,
   ⟨"Cement Bags (50kg)", "CM-50KG-001", "Cement", 200, 100, 380, "Warehouse B", "UltraTech"⟩,
   ⟨"Bricks (Red Clay)", "BR-RC-001", "Bricks", 5000, 1000, 8, "Yard 1", "Local Kiln"⟩,
   ⟨"Sand (per ton)", "SD-T-001", "Aggregates", 25, 10, 1200, "Yard 2", "Sand Suppliers Ltd"⟩,
   ⟨"Paint (White 20L)", "PT-W20-001", "Paint", 8, 15, 2500, "Warehouse A", "Asian Paints"⟩,
   ⟨"Tiles (Ceramic 2x2)", "TL-C22-001", "Tiles", 3, 20, 450, "Warehouse C", "Kajaria"⟩,
   ⟨"Plywood (8mm)", "PW-8MM-001", "Wood", 45, 20, 1800, "Warehouse A", "Century Ply"⟩]

/-- POST /api/seed, in-memory branch (server.js lines 353-363): replace
`inMemoryProducts` with the mapped catalog (ids `String(i + 1)`, status from
the inline `quantity <= reorderPoint` conditional), and reset
`productIdCounter`. -/
def seedInMemory (now : Nat) (s : InMemoryState) : InMemoryState :=
  let seeded : List Product := sampleProducts.enum.map (fun pi =>
    { id := toString (pi.1 + 1), name := pi.2.name, sku := pi.2.sku,
      category := pi.2.category, quantity := pi.2.quantity,
      reorderPoint := pi.2.reorderPoint, unitPrice := pi.2.unitPrice,
      location := pi.2.location, supplier := pi.2.supplier,
      status := if pi.2.quantity ≤ pi.2.reorderPoint then .lowStock else .inStock,
      lastRestocked := now, createdAt := now, updatedAt := now })
  { inMemoryProducts := seeded,
    inMemoryTransactions := s.inMemoryTransactions,
    productIdCounter := seeded.length + 1,
    transactionIdCounter := s.transactionIdCounter }

/-- POST /api/seed, MongoDB branch (server.js lines 364-371):
`Product.deleteMany({})` then `insertMany` of the catalog with
`updateProductStatus` applied to each `new Product(p)` (schema defaults:
`lastRestocked` now, `status` In Stock before derivation).  The generated
ObjectIds are modelled by positional ids. -/
def seedDb (now : Nat) (s : DbState) : DbState :=
  let seeded : List Product := sampleProducts.enum.map (fun pi =>
    updateProductStatus
      { id := toString (pi.1 + 1), name := pi.2.name, sku := pi.2.sku,
        category := pi.2.category, quantity := pi.2.quantity,
        reorderPoint := pi.2.reorderPoint, unitPrice := pi.2.unitPrice,
        location := pi.2.location, supplier := pi.2.supplier,
        status := .inStock, lastRestocked := now, createdAt := now, updatedAt := now })
  { products := seeded, transactions := s.transactions }

/-- The intended storage invariant: a stored product's `status` equals the
value `updateProductStatus` derives from its `quantity` and `reorderPoint`. -/
def statusInv (p : Product) : Bool :=
  decide (p.status = deriveStatus p.quantity p.reorderPoint)

/-- `statusInv` over a whole product list. -/
def statusInvAll (ps : List Product) : Bool := ps.all statusInv

/-- A concrete product used to exercise the handlers (status satisfies the
derivation invariant: quantity 5 is positive and at most the reorder point). -/
def p0 : Product :=
  { id := "1", name := "N", sku := "K", category := "C", quantity := 5,
    reorderPoint := 10, unitPrice := 2, location := "L", supplier := "S",
    lastRestocked := 0, status := .lowStock, createdAt := 0, updatedAt := 0 }

/-- A one-product in-memory state. -/
def demoMem : InMemoryState :=
  { inMemoryProducts := [p0], inMemoryTransactions := [],
    productIdCounter := 2, transactionIdCounter := 1 }

/-- A one-product MongoDB state. -/
def demoDb : DbState := { products := [p0], transactions := [] }

/-- A concrete transaction with the given timestamp. -/
def someTx (i : Nat) : Transaction :=
  { id := "t", productId := "1", type := .tOUT, quantity := 1, notes := "",
    performedBy := "System", createdAt := i }

/-- A creation payload that claims to be Damaged. -/
def demoBody : ProductBody :=
  { name := "N", sku := "K", category := "C", quantity := 5, reorderPoint := 10,
    unitPrice := 2, location := "L", supplier := "S", lastRestocked := 0,
    status := .damaged }

/-- An update payload that zeroes the quantity and claims to be Damaged. -/
def demoUpdate : UpdateBody :=
  { name := none, sku := none, category := none, quantity := some 0,
    reorderPoint := none, unitPrice := none, location := none, supplier := none,
    lastRestocked := none, status := some .damaged }

/-- A MongoDB state holding two transactions with distinct timestamps. -/
def demoDb2 : DbState := { products := [], transactions := [someTx 1, someTx 2] }

@[simp] theorem updateProductStatus_id (p : Product) : (updateProductStatus p).id = p.id := rfl

@[simp] theorem updateProductStatus_quantity (p : Product) :
    (updateProductStatus p).quantity = p.quantity := rfl

@[simp] theorem updateProductStatus_lastRestocked (p : Product) :
    (updateProductStatus p).lastRestocked = p.lastRestocked := rfl

@[simp] theorem updateProductStatus_reorderPoint (p : Product) :
    (updateProductStatus p).reorderPoint = p.reorderPoint := rfl

@[simp] theorem updateProductStatus_status (p : Product) :
    (updateProductStatus p).status = deriveStatus p.quantity p.reorderPoint := rfl

@[simp] theorem adjustQuantity_id (t : TxType) (n : Int) (p : Product) :
    (adjustQuantity t n p).id = p.id := by cases t <;> rfl

@[simp] theorem adjustQuantity_lastRestocked (t : TxType) (n : Int) (p : Product) :
    (adjustQuantity t n p).lastRestocked = p.lastRestocked := by cases t <;> rfl

@[simp] theorem adjustQuantity_quantity_tIN (n : Int) (p : Product) :
    (adjustQuantity .tIN n p).quantity = p.quantity + n := rfl

@[simp] theorem adjustQuantity_quantity_tRETURN (n : Int) (p : Product) :
    (adjustQuantity .tRETURN n p).quantity = p.quantity + n := rfl

@[simp] theorem adjustQuantity_quantity_tOUT (n : Int) (p : Product) :
    (adjustQuantity .tOUT n p).quantity = p.quantity - n := rfl

@[simp] theorem adjustQuantity_quantity_tDAMAGE (n : Int) (p : Product) :
    (adjustQuantity .tDAMAGE n p).quantity = p.quantity - n := rfl

@[simp] theorem setLastRestocked_id (t : TxType) (now : Nat) (p : Product) :
    (setLastRestocked t now p).id = p.id := by
  unfold setLastRestocked; split <;> rfl

@[simp] theorem setLastRestocked_quantity (t : TxType) (now : Nat) (p : Product) :
    (setLastRestocked t now p).quantity = p.quantity := by
  unfold setLastRestocked; split <;> rfl

@[simp] theorem setLastRestocked_reorderPoint (t : TxType) (now : Nat) (p : Product) :
    (setLastRestocked t now p).reorderPoint = p.reorderPoint := by
  unfold setLastRestocked; split <;> rfl

@[simp] theorem setLastRestocked_lastRestocked (t : TxType) (now : Nat) (p : Product) :
    (setLastRestocked t now p).lastRestocked = if t = .tIN then now else p.lastRestocked := by
  unfold setLastRestocked; split <;> simp_all

@[simp] theorem adjustQuantity_reorderPoint (t : TxType) (n : Int) (p : Product) :
    (adjustQuantity t n p).reorderPoint = p.reorderPoint := by cases t <;> rfl

/-- C1 — the claim as stated fails once the quantity is negative (reachable:
OUT/DAMAGE transactions are not clamped at zero).  At quantity `-1`,
reorder point `0`, `updateProductStatus` yields Low Stock although
`0 < q ∧ q ≤ r` does not hold. -/
theorem c1_counterexample :
    deriveStatus (-1) 0 = .lowStock ∧ ¬ ((0 : Int) < -1 ∧ (-1 : Int) ≤ 0) := by
  decide

/-- C1 (amended): for all integer quantity `q` and reorder point `r`, the
derived status is Out of Stock iff `q = 0`, Low Stock iff `q ≠ 0 ∧ q ≤ r`,
and In Stock iff `q ≠ 0 ∧ q > r`; exactly one of the three cases applies.
(For `q > 0` and `r ≥ 0` this coincides with the claim as stated.) -/
theorem c1_statusDerivation (q r : Int) :
    (deriveStatus q r = .outOfStock ↔ q = 0) ∧
    (deriveStatus q r = .lowStock ↔ q ≠ 0 ∧ q ≤ r) ∧
    (deriveStatus q r = .inStock ↔ q ≠ 0 ∧ r < q) := by
  unfold deriveStatus
  refine ⟨?_, ?_, ?_⟩ <;> split <;> (try split) <;> simp_all

/-- After the in-place mutation of the first matching array entry, looking the
product up again yields the mutated record. -/
theorem replaceFirst_find? (productId : String) (p' : Product)
    (hp : (p'.id == productId) = true) :
    ∀ (l : List Product) (p : Product),
      l.find? (fun q => q.id == productId) = some p →
      (replaceFirst productId p' l).find? (fun q => q.id == productId) = some p' := by
  intro l
  induction l with
  | nil => intro p hfind; simp at hfind
  | cons a as ih =>
    intro p hfind
    by_cases h : (a.id == productId) = true
    · simp [replaceFirst, h, List.find?_cons_of_pos, hp]
    · rw [List.find?_cons_of_neg _ (by simp_all)] at hfind
      simpa [replaceFirst, h, List.find?_cons_of_neg _ (by simp_all : ¬ (a.id == productId) = true)]
        using ih p hfind

/-- The in-memory transaction handler on a found product: the response data
and where the updated product is stored. -/
theorem postTxInMemory_spec (productId : String) (t : TxType) (n : Int)
    (notes performedBy : Option String) (now : Nat) (s : InMemoryState) (p : Product)
    (h : s.inMemoryProducts.find? (fun q => q.id == productId) = some p) :
    ∃ s' tx p',
      postTransactionInMemory productId t n notes performedBy now s = some (s', tx, p') ∧
      p' = { updateProductStatus (setLastRestocked t now (adjustQuantity t n p)) with
              updatedAt := now } ∧
      s'.inMemoryProducts.find? (fun q => q.id == productId) = some p' := by
  unfold postTransactionInMemory
  rw [h]
  refine ⟨_, _, _, rfl, rfl, ?_⟩
  have hid : (p.id == productId) = true := by simpa using List.find?_some h
  exact replaceFirst_find? productId _ (by simpa using hid) s.inMemoryProducts p h

/-- The MongoDB transaction handler on a found product: the response data and
where the updated product is stored. -/
theorem postTxDb_spec (productId : String) (t : TxType) (n : Int)
    (notes performedBy : Option String) (txId : String) (now : Nat) (s : DbState) (p : Product)
    (h : s.products.find? (fun q => q.id == productId) = some p) :
    ∃ s' tx p',
      postTransactionDb productId t n notes performedBy txId now s = some (s', tx, p') ∧
      p' = { updateProductStatus (setLastRestocked t now (adjustQuantity t n p)) with
              updatedAt := now } ∧
      s'.products.find? (fun q => q.id == productId) = some p' := by
  unfold postTransactionDb
  rw [h]
  refine ⟨_, _, _, rfl, rfl, ?_⟩
  have hid : (p.id == productId) = true := by simpa using List.find?_some h
  exact replaceFirst_find? productId _ (by simpa using hid) s.products p h

/-- C2: for every existing product, an IN transaction of amount `n` increases
the stored quantity by exactly `n` and sets `lastRestocked` to the time of
the transaction, in both storage modes. -/
theorem c2_inTransaction :
    (∀ (productId : String) (n : Int) (notes performedBy : Option String) (now : Nat)
        (s : InMemoryState) (p : Product),
        s.inMemoryProducts.find? (fun q => q.id == productId) = some p →
        ∃ s' tx p',
          postTransactionInMemory productId .tIN n notes performedBy now s = some (s', tx, p') ∧
          p'.quantity = p.quantity + n ∧ p'.lastRestocked = now ∧
          s'.inMemoryProducts.find? (fun q => q.id == productId) = some p') ∧
    (∀ (productId : String) (n : Int) (notes performedBy : Option String)
        (txId : String) (now : Nat) (s : DbState) (p : Product),
        s.products.find? (fun q => q.id == productId) = some p →
        ∃ s' tx p',
          postTransactionDb productId .tIN n notes performedBy txId now s = some (s', tx, p') ∧
          p'.quantity = p.quantity + n ∧ p'.lastRestocked = now ∧
          s'.products.find? (fun q => q.id == productId) = some p') := by
  constructor
  · intro productId n notes performedBy now s p h
    obtain ⟨s', tx, p', heq, hp', hfind⟩ :=
      postTxInMemory_spec productId .tIN n notes performedBy now s p h
    refine ⟨s', tx, p', heq, ?_, ?_, hfind⟩
    · subst hp'; simp
    · subst hp'; simp
  · intro productId n notes performedBy txId now s p h
    obtain ⟨s', tx, p', heq, hp', hfind⟩ :=
      postTxDb_spec productId .tIN n notes performedBy txId now s p h
    refine ⟨s', tx, p', heq, ?_, ?_, hfind⟩
    · subst hp'; simp
    · subst hp'; simp

/-- Witness for C2 at a concrete state. -/
theorem c2_witness :
    ∃ s' tx p',
      postTransactionInMemory "1" .tIN 4 none none 9 demoMem = some (s', tx, p') ∧
      p'.quantity = p0.quantity + 4 ∧ p'.lastRestocked = 9 ∧
      s'.inMemoryProducts.find? (fun q => q.id == "1") = some p' :=
  c2_inTransaction.1 "1" 4 none none 9 demoMem p0 (by decide)

/-- C3: for every existing product, an OUT or DAMAGE transaction of amount
`n` decreases the stored quantity by exactly `n` in both storage modes, with
no clamping — as the final conjunct shows, the result can be negative. -/
theorem c3_outDamageTransaction :
    (∀ (t : TxType), t = .tOUT ∨ t = .tDAMAGE →
      ∀ (productId : String) (n : Int) (notes performedBy : Option String) (now : Nat)
        (s : InMemoryState) (p : Product),
        s.inMemoryProducts.find? (fun q => q.id == productId) = some p →
        ∃ s' tx p',
          postTransactionInMemory productId t n notes performedBy now s = some (s', tx, p') ∧
          p'.quantity = p.quantity - n ∧
          s'.inMemoryProducts.find? (fun q => q.id == productId) = some p') ∧
    (∀ (t : TxType), t = .tOUT ∨ t = .tDAMAGE →
      ∀ (productId : String) (n : Int) (notes performedBy : Option String)
        (txId : String) (now : Nat) (s : DbState) (p : Product),
        s.products.find? (fun q => q.id == productId) = some p →
        ∃ s' tx p',
          postTransactionDb productId t n notes performedBy txId now s = some (s', tx, p') ∧
          p'.quantity = p.quantity - n ∧
          s'.products.find? (fun q => q.id == productId) = some p') ∧
    (∃ s' tx p',
      postTransactionInMemory "1" .tOUT 9 none none 3 demoMem = some (s', tx, p') ∧
      p'.quantity < 0) := by
  refine ⟨?_, ?_, ?_⟩
  · rintro t (rfl | rfl) productId n notes performedBy now s p h <;>
    · obtain ⟨s', tx, p', heq, hp', hfind⟩ :=
        postTxInMemory_spec productId _ n notes performedBy now s p h
      exact ⟨s', tx, p', heq, by subst hp'; simp, hfind⟩
  · rintro t (rfl | rfl) productId n notes performedBy txId now s p h <;>
    · obtain ⟨s', tx, p', heq, hp', hfind⟩ :=
        postTxDb_spec productId _ n notes performedBy txId now s p h
      exact ⟨s', tx, p', heq, by subst hp'; simp, hfind⟩
  · obtain ⟨s', tx, p', heq, hp', hfind⟩ :=
      postTxInMemory_spec "1" .tOUT 9 none none 3 demoMem p0 (by decide)
    refine ⟨s', tx, p', heq, ?_⟩
    subst hp'
    simp [p0]

/-- Witness for C3 at a concrete state. -/
theorem c3_witness :
    ∃ s' tx p',
      postTransactionInMemory "1" .tOUT 2 none none 3 demoMem = some (s', tx, p') ∧
      p'.quantity = p0.quantity - 2 ∧
      s'.inMemoryProducts.find? (fun q => q.id == "1") = some p' :=
  c3_outDamageTransaction.1 .tOUT (Or.inl rfl) "1" 2 none none 3 demoMem p0 (by decide)

/-- C4: for every existing product, a RETURN transaction of amount `n`
increases the stored quantity by exactly `n` and leaves `lastRestocked`
unchanged, in both storage modes. -/
theorem c4_returnTransaction :
    (∀ (productId : String) (n : Int) (notes performedBy : Option String) (now : Nat)
        (s : InMemoryState) (p : Product),
        s.inMemoryProducts.find? (fun q => q.id == productId) = some p →
        ∃ s' tx p',
          postTransactionInMemory productId .tRETURN n notes performedBy now s = some (s', tx, p') ∧
          p'.quantity = p.quantity + n ∧ p'.lastRestocked = p.lastRestocked ∧
          s'.inMemoryProducts.find? (fun q => q.id == productId) = some p') ∧
    (∀ (productId : String) (n : Int) (notes performedBy : Option String)
        (txId : String) (now : Nat) (s : DbState) (p : Product),
        s.products.find? (fun q => q.id == productId) = some p →
        ∃ s' tx p',
          postTransactionDb productId .tRETURN n notes performedBy txId now s = some (s', tx, p') ∧
          p'.quantity = p.quantity + n ∧ p'.lastRestocked = p.lastRestocked ∧
          s'.products.find? (fun q => q.id == productId) = some p') := by
  constructor
  · intro productId n notes performedBy now s p h
    obtain ⟨s', tx, p', heq, hp', hfind⟩ :=
      postTxInMemory_spec productId .tRETURN n notes performedBy now s p h
    exact ⟨s', tx, p', heq, by subst hp'; simp, by subst hp'; simp, hfind⟩
  · intro productId n notes performedBy txId now s p h
    obtain ⟨s', tx, p', heq, hp', hfind⟩ :=
      postTxDb_spec productId .tRETURN n notes performedBy txId now s p h
    exact ⟨s', tx, p', heq, by subst hp'; simp, by subst hp'; simp, hfind⟩

/-- Witness for C4 at a concrete state. -/
theorem c4_witness :
    ∃ s' tx p',
      postTransactionInMemory "1" .tRETURN 4 none none 9 demoMem = some (s', tx, p') ∧
      p'.quantity = p0.quantity + 4 ∧ p'.lastRestocked = p0.lastRestocked ∧
      s'.inMemoryProducts.find? (fun q => q.id == "1") = some p' :=
  c4_returnTransaction.1 "1" 4 none none 9 demoMem p0 (by decide)

/-- C5 — the claim as stated fails in the in-memory storage mode: with 101
stored transactions, GET /api/transactions returns all 101 of them (the
in-memory branch neither limits nor sorts). -/
theorem c5_counterexample :
    ¬ ((getTransactionsInMemory
        { inMemoryProducts := [], inMemoryTransactions := List.replicate 101 (someTx 0),
          productIdCounter := 1, transactionIdCounter := 102 }).length ≤ 100) := by
  simp [getTransactionsInMemory]

/-- C5 (amended): in the MongoDB mode, GET /api/transactions returns at most
100 transactions, sorted newest first, all drawn from the store, and they are
the most recent ones (no stored transaction left out is newer than any
returned one); in the in-memory mode the handler instead returns the whole
stored list as is. -/
theorem c5_getTransactions (sd : DbState) (sm : InMemoryState) :
    (getTransactionsDb sd).length ≤ 100 ∧
    List.Sorted txRecent (getTransactionsDb sd) ∧
    (∀ t ∈ getTransactionsDb sd, t ∈ sd.transactions) ∧
    (∀ t ∈ getTransactionsDb sd, ∀ u ∈ sd.transactions,
        u ∉ getTransactionsDb sd → u.createdAt ≤ t.createdAt) ∧
    getTransactionsInMemory sm = sm.inMemoryTransactions := by
  have hdef : getTransactionsDb sd = (sd.transactions.insertionSort txRecent).take 100 := rfl
  have hsorted : List.Sorted txRecent (sd.transactions.insertionSort txRecent) :=
    List.sorted_insertionSort txRecent sd.transactions
  refine ⟨?_, ?_, ?_, ?_, rfl⟩
  · rw [hdef]
    exact List.length_take_le 100 _
  · rw [hdef]
    exact List.Pairwise.sublist (List.take_sublist _ _) hsorted
  · intro t ht
    rw [hdef] at ht
    exact (List.mem_insertionSort txRecent).mp (List.mem_of_mem_take ht)
  · intro t ht u hu hnotu
    rw [hdef] at ht hnotu
    have hu' : u ∈ sd.transactions.insertionSort txRecent :=
      (List.mem_insertionSort txRecent).mpr hu
    have hu'' : u ∈ (sd.transactions.insertionSort txRecent).drop 100 := by
      have : u ∈ (sd.transactions.insertionSort txRecent).take 100 ++
            (sd.transactions.insertionSort txRecent).drop 100 := by
        rw [List.take_append_drop]; exact hu'
      rcases List.mem_append.mp this with h1 | h2
      · exact absurd h1 hnotu
      · exact h2
    have hpw : List.Pairwise txRecent
        ((sd.transactions.insertionSort txRecent).take 100 ++
          (sd.transactions.insertionSort txRecent).drop 100) := by
      rw [List.take_append_drop]; exact hsorted
    exact (List.pairwise_append.mp hpw).2.2 t ht u hu''

/-- Witness for C5 at a concrete state. -/
theorem c5_witness : someTx 2 ∈ demoDb2.transactions :=
  (c5_getTransactions demoDb2 demoMem).2.2.1 (someTx 2) (by decide)

/-- C6 — the claim as stated fails: every handler has a single catch clause
with a fixed status code, so DELETE signals even a validation failure as 500
(not 400), and POST signals even a backend failure as 400 (not 500). -/
theorem c6_counterexample :
    ((deleteProductCatch "Product validation failed").httpStatus = 500 ∧ (500 : Nat) ≠ 400) ∧
    ((createProductCatch "connection timed out").httpStatus = 400 ∧ (400 : Nat) ≠ 500) := by
  decide

/-- C6 (amended): each product CRUD handler maps every caught failure —
validation or backend alike — to one fixed status: 400 with the underlying
message for create and update, 500 with the underlying message for list,
get-by-id and delete. -/
theorem c6_errorHandling (e : String) :
    listProductsCatch e = { httpStatus := 500, message := "Error fetching products", error := e } ∧
    getProductCatch e = { httpStatus := 500, message := "Error fetching product", error := e } ∧
    createProductCatch e = { httpStatus := 400, message := "Error creating product", error := e } ∧
    updateProductCatch e = { httpStatus := 400, message := "Error updating product", error := e } ∧
    deleteProductCatch e = { httpStatus := 500, message := "Error deleting product", error := e } :=
  ⟨rfl, rfl, rfl, rfl, rfl⟩

/-- Folding `sum + f p` over a list from `a` is `a` plus the sum of the
mapped list (the shape of the analytics `reduce`). -/
theorem foldl_add_map_sum (f : Product → Int) :
    ∀ (l : List Product) (a : Int),
      l.foldl (fun sum p => sum + f p) a = a + (l.map f).sum := by
  intro l
  induction l with
  | nil => simp
  | cons p ps ih =>
    intro a
    simp only [List.foldl_cons, List.map_cons, List.sum_cons, ih]
    ring

/-- C7: the analytics endpoint's `totalValue` equals the sum over all
products of `quantity * unitPrice`, and its `totalProducts` equals the
number of products, at the time of the call. -/
theorem c7_analytics (products : List Product) :
    (getAnalytics products).totalValue =
      (products.map (fun p => p.quantity * p.unitPrice)).sum ∧
    (getAnalytics products).totalProducts = products.length := by
  constructor
  · simpa [getAnalytics] using foldl_add_map_sum (fun p => p.quantity * p.unitPrice) products 0
  · rfl

/-- C8: in both storage modes and from any prior state, seeding installs a
catalog of exactly 7 products, each with status equal to the value derived
from its quantity and reorder point, and the result does not depend on the
previously stored products (the catalog is fully replaced). -/
theorem c8_seed (now : Nat) (sm : InMemoryState) (sd : DbState) :
    (seedInMemory now sm).inMemoryProducts.length = 7 ∧
    statusInvAll (seedInMemory now sm).inMemoryProducts = true ∧
    (seedDb now sd).products.length = 7 ∧
    statusInvAll (seedDb now sd).products = true ∧
    (∀ sm' : InMemoryState,
      (seedInMemory now sm').inMemoryProducts = (seedInMemory now sm).inMemoryProducts) ∧
    (∀ sd' : DbState, (seedDb now sd').products = (seedDb now sd).products) :=
  ⟨rfl, rfl, rfl, rfl, fun _ => rfl, fun _ => rfl⟩

/-- C9: deleting a product (found or not) leaves the transaction store
untouched in both storage modes. -/
theorem c9_deleteKeepsTransactions (id : String) (sm : InMemoryState) (sd : DbState) :
    (deleteProductInMemory id sm).2.inMemoryTransactions = sm.inMemoryTransactions ∧
    (deleteProductDb id sd).2.transactions = sd.transactions := by
  constructor
  · cases h : sm.inMemoryProducts.findIdx? (fun p => p.id == id) <;>
      simp [deleteProductInMemory, h]
  · cases h : sd.products.find? (fun p => p.id == id) <;>
      simp [deleteProductDb, h]

/-- A product that just went through `updateProductStatus` satisfies the
status invariant. -/
theorem statusInv_updateProductStatus (p : Product) :
    statusInv (updateProductStatus p) = true := by
  simp [statusInv]

/-- Overwriting `updatedAt` does not affect the status invariant. -/
theorem statusInv_updatedAt (p : Product) (now : Nat) :
    statusInv { p with updatedAt := now } = statusInv p := rfl

/-- Replacing the first matching entry by an invariant-satisfying product
preserves the list-wide status invariant. -/
theorem statusInvAll_replaceFirst (productId : String) (p' : Product)
    (h : statusInv p' = true) :
    ∀ l, statusInvAll l = true → statusInvAll (replaceFirst productId p' l) = true := by
  intro l
  induction l with
  | nil => intro _; rfl
  | cons a as ih =>
    intro hl
    simp only [statusInvAll, List.all_cons, Bool.and_eq_true] at hl
    by_cases hid : (a.id == productId) = true
    · simp [replaceFirst, hid, statusInvAll, h, hl.2]
    · have := ih hl.2
      simp only [statusInvAll] at this
      simp [replaceFirst, hid, statusInvAll, hl.1, this]

/-- C10: every write path stores only derived statuses.  `deriveStatus`
never yields Damaged; create (both modes) preserves the list invariant while
overwriting any client-supplied status; update and the transaction handler
(both modes) preserve it on success and leave the store untouched on a 404;
seeding establishes it outright.  Hence "Damaged" is never stored through
the public API. -/
theorem c10_statusInvariant :
    (∀ q r : Int, deriveStatus q r ≠ .damaged) ∧
    (∀ (body : ProductBody) (now : Nat) (s : InMemoryState),
      statusInvAll s.inMemoryProducts = true →
      statusInvAll (createProductInMemory body now s).1.inMemoryProducts = true) ∧
    (∀ (body : ProductBody) (newId : String) (now : Nat) (s : DbState),
      statusInvAll s.products = true →
      statusInvAll (createProductDb body newId now s).1.products = true) ∧
    (∀ (id : String) (body : UpdateBody) (now : Nat) (s : InMemoryState),
      statusInvAll s.inMemoryProducts = true →
      ((updateProductInMemory id body now s).all
        fun res => statusInvAll res.1.inMemoryProducts) = true) ∧
    (∀ (id : String) (body : UpdateBody) (now : Nat) (s : DbState),
      statusInvAll s.products = true →
      ((updateProductDb id body now s).all fun res => statusInvAll res.1.products) = true) ∧
    (∀ (productId : String) (t : TxType) (n : Int) (notes performedBy : Option String)
        (now : Nat) (s : InMemoryState),
      statusInvAll s.inMemoryProducts = true →
      ((postTransactionInMemory productId t n notes performedBy now s).all
        fun res => statusInvAll res.1.inMemoryProducts) = true) ∧
    (∀ (productId : String) (t : TxType) (n : Int) (notes performedBy : Option String)
        (txId : String) (now : Nat) (s : DbState),
      statusInvAll s.products = true →
      ((postTransactionDb productId t n notes performedBy txId now s).all
        fun res => statusInvAll res.1.products) = true) ∧
    (∀ (now : Nat) (s : InMemoryState),
      statusInvAll (seedInMemory now s).inMemoryProducts = true) ∧
    (∀ (now : Nat) (s : DbState), statusInvAll (seedDb now s).products = true) := by
  refine ⟨?_, ?_, ?_, ?_, ?_, ?_, ?_, fun _ _ => rfl, fun _ _ => rfl⟩
  · intro q r
    unfold deriveStatus
    split <;> (try split) <;> simp
  · intro body now s h
    simp only [statusInvAll] at h
    simp [createProductInMemory, statusInvAll, statusInv_updateProductStatus, h]
  · intro body newId now s h
    simp only [statusInvAll] at h
    simp [createProductDb, statusInvAll, statusInv_updateProductStatus, h]
  · intro id body now s h
    cases hfind : s.inMemoryProducts.find? (fun p => p.id == id) with
    | none => simp [updateProductInMemory, hfind]
    | some p =>
      simp only [updateProductInMemory, hfind, Option.all_some]
      exact statusInvAll_replaceFirst id _ (statusInv_updateProductStatus _) _ h
  · intro id body now s h
    cases hfind : s.products.find? (fun p => p.id == id) with
    | none => simp [updateProductDb, hfind]
    | some p =>
      simp only [updateProductDb, hfind, Option.all_some]
      exact statusInvAll_replaceFirst id _ (statusInv_updateProductStatus _) _ h
  · intro productId t n notes performedBy now s h
    cases hfind : s.inMemoryProducts.find? (fun p => p.id == productId) with
    | none => simp [postTransactionInMemory, hfind]
    | some p =>
      simp only [postTransactionInMemory, hfind, Option.all_some]
      refine statusInvAll_replaceFirst productId _ ?_ _ h
      rw [statusInv_updatedAt]
      exact statusInv_updateProductStatus _
  · intro productId t n notes performedBy txId now s h
    cases hfind : s.products.find? (fun p => p.id == productId) with
    | none => simp [postTransactionDb, hfind]
    | some p =>
      simp only [postTransactionDb, hfind, Option.all_some]
      refine statusInvAll_replaceFirst productId _ ?_ _ h
      rw [statusInv_updatedAt]
      exact statusInv_updateProductStatus _

/-- Witness for C10 at concrete states and payloads (including a payload
that claims to be Damaged). -/
theorem c10_witness :
    statusInvAll (createProductInMemory demoBody 5 demoMem).1.inMemoryProducts = true ∧
    statusInvAll (createProductDb demoBody "9" 5 demoDb).1.products = true ∧
    ((updateProductInMemory "1" demoUpdate 5 demoMem).all
      fun res => statusInvAll res.1.inMemoryProducts) = true ∧
    ((updateProductDb "1" demoUpdate 5 demoDb).all
      fun res => statusInvAll res.1.products) = true ∧
    ((postTransactionInMemory "1" .tIN 4 none none 5 demoMem).all
      fun res => statusInvAll res.1.inMemoryProducts) = true ∧
    ((postTransactionDb "1" .tDAMAGE 4 none none "9" 5 demoDb).all
      fun res => statusInvAll res.1.products) = true :=
  ⟨c10_statusInvariant.2.1 demoBody 5 demoMem (by decide),
   c10_statusInvariant.2.2.1 demoBody "9" 5 demoDb (by decide),
   c10_statusInvariant.2.2.2.1 "1" demoUpdate 5 demoMem (by decide),
   c10_statusInvariant.2.2.2.2.1 "1" demoUpdate 5 demoDb (by decide),
   c10_statusInvariant.2.2.2.2.2.1 "1" .tIN 4 none none 5 demoMem (by decide),
   c10_statusInvariant.2.2.2.2.2.2.1 "1" .tDAMAGE 4 none none "9" 5 demoDb (by decide)⟩
